import Mathlib

/-!
# Verification of the Dexter-AI real-time voice-assistant gateway

Shallow embedding of the session pipeline of the Dexter-AI repository
(`main.py`, `app/api/routes.py`, `app/services/llm_service.py`,
`app/services/tts_service.py`) and proofs of the behavioural claims made
about it.

Conventions of the embedding:
* Python strings are Lean `String`s; Python truthiness of a string
  (`if not s`) is the test `s = ""`, and an optional key that may be
  `None` or empty is an `Option String` tested with `pyTruthy`.
* Python `set` membership is `List.contains` over a list of the inserted
  elements.
* Machine integers do not overflow in any of the modelled code paths
  (byte counts, history lengths), so `Nat` is used directly.
* Stateful callback code is embedded as explicit state passing: each
  handler is a function from the pre-state and the event to the
  post-state, and a run of the system is a `List.foldl` over the events.
-/

namespace DexterAI

/-!
String primitives.  The Lean core implementations of `String.splitOn`,
`String.trim` and `String.toLower` do not reduce inside the kernel, so
the Python string operations the code uses are embedded as structurally
recursive functions on the character list of the string.
-/

/-- Does `pat` occur at the head of `s`? -/
def startsWithL : List Char → List Char → Bool
  | _, [] => true
  | [], _ :: _ => false
  | c :: cs, p :: ps => c = p && startsWithL cs ps

/-- Python `pat in s`: does `pat` occur anywhere in `s`? -/
def containsL (s pat : List Char) : Bool :=
  match s with
  | [] => startsWithL [] pat
  | _ :: cs => startsWithL s pat || containsL cs pat

/-- The characters before the first occurrence of `pat` (the whole list
when `pat` does not occur): Python `s.split(pat)[0]` for non-empty
`pat`. -/
def beforeFirstL : List Char → List Char → List Char
  | [], _ => []
  | c :: cs, pat =>
      if startsWithL (c :: cs) pat then [] else c :: beforeFirstL cs pat

/-- The characters after the first occurrence of `pat` (empty when `pat`
does not occur): Python `s.split(pat, 1)[1]` for non-empty `pat`, whose
callers guard on `pat in s`. -/
def afterFirstL : List Char → List Char → List Char
  | [], _ => []
  | c :: cs, pat =>
      if startsWithL (c :: cs) pat then (c :: cs).drop pat.length
      else afterFirstL cs pat

/-- The whitespace characters Python `str.strip()` removes, restricted to
the ASCII whitespace that can occur in the modelled inputs. -/
def isSpaceChar (c : Char) : Bool :=
  c = ' ' || c = '\t' || c = '\n' || c = '\r'

/-- Drop leading whitespace. -/
def dropLeading : List Char → List Char
  | [] => []
  | c :: cs => if isSpaceChar c then dropLeading cs else c :: cs

/-- Python `s.strip()`: remove leading and trailing whitespace. -/
def pyStrip (s : String) : String :=
  ⟨dropLeading (dropLeading s.data.reverse).reverse⟩

/-- Python `s.lower()` (character-wise; the keyword tests only involve
ASCII). -/
def pyLower (s : String) : String :=
  ⟨s.data.map Char.toLower⟩

/-- Python `pat in s` on strings. -/
def containsSubstr (s pat : String) : Bool :=
  containsL s.data pat.data

/-- Python `s.split(pat)[0]` on strings, for non-empty `pat`. -/
def beforeFirst (s pat : String) : String :=
  ⟨beforeFirstL s.data pat.data⟩

/-- Python `s.split(pat, 1)[1]` on strings, for non-empty `pat` occurring
in `s`. -/
def afterFirst (s pat : String) : String :=
  ⟨afterFirstL s.data pat.data⟩

/-- Python `sep.join(parts)`. -/
def joinWith (sep : String) : List String → String
  | [] => ""
  | [x] => x
  | x :: xs => x ++ sep ++ joinWith sep xs

/-- Python truthiness of an optional string (`None` and `""` are falsy). -/
def pyTruthy : Option String → Bool
  | none => false
  | some s => s ≠ ""

/-- Python `a or b` on strings (empty string is falsy). -/
def pyOr (a b : String) : String :=
  if a ≠ "" then a else b

-- ---------------------------------------------------------------------------
-- Turn Dispatcher: `on_turn` in `main.py` (lines 419-434)
-- ---------------------------------------------------------------------------

/-- A recognizer turn event as consumed by `on_turn`: the fields of the
AssemblyAI event that the handler reads (`end_of_turn`,
`turn_is_formatted` via `getattr` with default `False`, `transcript`). -/
structure TurnEvent where
  end_of_turn : Bool
  turn_is_formatted : Bool
  transcript : String
deriving Repr, DecidableEq

/-- The per-session state touched by `on_turn`: the `seen_texts` dedup set,
plus the observable history of `transcript` notifications sent to the
client and of `process_transcript` invocations (the intent-router calls),
each recorded in order of occurrence. -/
structure TurnState where
  seen_texts : List String
  notifications : List String
  routerCalls : List String
deriving Repr, DecidableEq

/-- `on_turn(client, event)` from `main.py`.  Returns early unless the event
is `end_of_turn` and `turn_is_formatted`; strips the transcript; returns
early when the stripped text is empty or already in `seen_texts`;
otherwise records the text as seen, sends the finalized-transcript
notification, and (when `AUTO_ASSISTANT_REPLY` is set) schedules
`process_transcript`. -/
def on_turn (auto_reply : Bool) (st : TurnState) (e : TurnEvent) : TurnState :=
  if !e.end_of_turn || !e.turn_is_formatted then st
  else
    let text := pyStrip e.transcript
    if text = "" || st.seen_texts.contains text then st
    else
      { seen_texts := text :: st.seen_texts,
        notifications := st.notifications ++ [text],
        routerCalls := st.routerCalls ++ (if auto_reply then [text] else []) }

/-- The state of a fresh session (`seen_texts = set()`, nothing emitted). -/
def initialTurnState : TurnState :=
  { seen_texts := [], notifications := [], routerCalls := [] }

/-- Deliver a whole sequence of recognizer events to `on_turn`. -/
def runTurns (auto_reply : Bool) (events : List TurnEvent) : TurnState :=
  events.foldl (on_turn auto_reply) initialTurnState

/-- Invariant maintained by `on_turn`: notifications are duplicate-free,
every notified text is in the dedup set, and the router is invoked on
exactly the notified texts (all of them when auto-reply is on, none
otherwise). -/
def TurnInv (auto_reply : Bool) (st : TurnState) : Prop :=
  st.notifications.Nodup ∧
  (∀ t, t ∈ st.notifications → t ∈ st.seen_texts) ∧
  st.routerCalls = (if auto_reply then st.notifications else [])

-- ---------------------------------------------------------------------------
-- Audio Ingestion Bridge: `QueueAudioStreamer` in `main.py` (lines 102-142)
-- ---------------------------------------------------------------------------

/-- The state of a `QueueAudioStreamer` that the byte-budget logic touches:
the sizes of the chunks currently enqueued but not yet consumed by the
worker generator (`self.q`, FIFO), and the byte counter `self._inflight`.
Chunks are abstracted to their sizes (`len(chunk)`), the only attribute
the budget logic reads. -/
structure StreamerState where
  queued : List Nat
  inflight : Nat
deriving Repr, DecidableEq

namespace QueueAudioStreamer

/-- `QueueAudioStreamer.send(chunk)`: computes `sz = len(chunk)`; if
`self._inflight + sz > self._budget` the frame is dropped (plain
`return`, queue untouched); otherwise `_inflight` grows by `sz` and the
chunk is enqueued.  `q.put` on an unbounded `queue.Queue` never blocks. -/
def send (budget : Nat) (st : StreamerState) (sz : Nat) : StreamerState :=
  if st.inflight + sz > budget then st
  else { queued := st.queued ++ [sz], inflight := st.inflight + sz }

/-- One iteration of the worker generator `_gen`: `q.get()` dequeues the
oldest chunk and `_inflight` is decremented by its size.  When the queue
is empty `q.get()` blocks, so no state change is observable. -/
def genStep (st : StreamerState) : StreamerState :=
  match st.queued with
  | [] => st
  | sz :: rest => { queued := rest, inflight := st.inflight - sz }

/-- An interleaving of producer and consumer actions on the streamer. -/
inductive Op where
  | send (sz : Nat)
  | consume
deriving Repr, DecidableEq

/-- Apply one action. -/
def step (budget : Nat) (st : StreamerState) : Op → StreamerState
  | .send sz => send budget st sz
  | .consume => genStep st

/-- State of a freshly constructed streamer (`queue.Queue()` empty,
`self._inflight = 0`). -/
def initial : StreamerState := { queued := [], inflight := 0 }

/-- Run an arbitrary interleaving of `send` and consumer steps. -/
def run (budget : Nat) (ops : List Op) : StreamerState :=
  ops.foldl (step budget) initial

/-- The streamer invariant: `_inflight` equals the total bytes
enqueued-but-unconsumed, and that total never exceeds the budget. -/
def StreamerInv (budget : Nat) (st : StreamerState) : Prop :=
  st.inflight = st.queued.sum ∧ st.queued.sum ≤ budget

end QueueAudioStreamer

-- ---------------------------------------------------------------------------
-- Conversation data model
-- ---------------------------------------------------------------------------

/-- One history entry: the `{"role": ..., "content": ...}` dicts appended to
`CHAT_HISTORY` / `chat_store`. -/
structure Turn where
  role : String
  content : String
deriving Repr, DecidableEq

/-- The JSON-shaped messages sent to the duplex client, abstracted to the
`type` tag plus the payload fields the claims are about. -/
inductive Event where
  | transcript (text : String)
  | weather (text : String)
  | news (text : String)
  | llm_chunk (text : String)
  | llm_response (text : String)
  | error (message : String)
  | info (message : String)
deriving Repr, DecidableEq

-- ---------------------------------------------------------------------------
-- History bound: `save_message` in `app/api/routes.py` (lines 65-75)
-- ---------------------------------------------------------------------------

/-- `settings.HISTORY_MAX_MESSAGES` (`app/utils/config.py`, env default 6). -/
def HISTORY_MAX_MESSAGES : Nat := 6

/-- Python `l[-n:]`: the suffix of the last `n` elements.  For `n = 0`
Python returns the whole list (`l[-0:] = l[0:]`), unlike `List.drop`. -/
def pyLastSlice (n : Nat) (l : List Turn) : List Turn :=
  if n = 0 then l else l.drop (l.length - n)

/-- `save_message(session_id, role, content)` from `routes.py`: append the
new message, then trim to the most recent `HISTORY_MAX_MESSAGES` entries
when the length exceeds the maximum. -/
def save_message (max_len : Nat) (history : List Turn) (role content : String) :
    List Turn :=
  let h := history ++ [⟨role, content⟩]
  if h.length > max_len then pyLastSlice max_len h else h

-- ---------------------------------------------------------------------------
-- Language-model streaming: `stream_llm_response_async` in
-- `app/services/llm_service.py` (lines 86-158)
-- ---------------------------------------------------------------------------

/-- The behaviour of one upstream `generate_content_stream` call, abstracted
to the per-chunk texts that `_extract_text_from_chunk` produces:
`success chunks` when the iteration runs to completion, `failure chunks`
when an exception interrupts it after the listed chunks were produced. -/
inductive LLMStreamResult where
  | success (chunks : List String)
  | failure (chunks : List String)
deriving Repr, DecidableEq

/-- The left-to-right accumulation `full_text += text` over the chunk
texts.  The source skips chunks whose extracted text is empty
(`if not text: continue`), which leaves the concatenation unchanged. -/
def joinChunks (chunks : List String) : String :=
  chunks.foldl (fun acc c => acc ++ c) ""

/-- `stream_llm_response_async(prompt, ...)` as invoked from
`process_transcript` (no `ws_send` argument is passed there, so no
per-chunk callback fires).  On normal completion the accumulated
`full_text` is returned; the enclosing `try`/`except` catches any failure
during the stream and returns the empty string, discarding `full_text`
(the missing-key and missing-library early exits also return `""`). -/
def stream_llm_response_async : LLMStreamResult → String
  | .success chunks => joinChunks chunks
  | .failure _ => ""

/-- The shape of the Python awaitable returned by calling an
`async`-defined function: a coroutine object (has `__await__`) versus an
async generator (has `__aiter__`). -/
inductive PyAwaitable where
  | coroutine
  | asyncGenerator
deriving Repr, DecidableEq

/-- Python `hasattr(x, '__aiter__')`: true exactly for async generators;
coroutine objects do not define `__aiter__`. -/
def hasAiter : PyAwaitable → Bool
  | .coroutine => false
  | .asyncGenerator => true

/-- `llm_response = stream_llm_response_async(...)` in `main.py` line 319:
`stream_llm_response_async` is declared `async def ... -> str`, so
calling it produces a coroutine object, not an async generator. -/
def llmResponseKind : PyAwaitable := .coroutine

-- ---------------------------------------------------------------------------
-- Intent Router & Response Orchestrator: `process_transcript` in `main.py`
-- (lines 233-361)
-- ---------------------------------------------------------------------------

/-- The weather-branch keyword test (`main.py` line 242) on the lowercased
text. -/
def hasWeatherKeyword (lower_text : String) : Bool :=
  containsSubstr lower_text "weather" || containsSubstr lower_text "temperature" ||
    containsSubstr lower_text "forecast"

/-- The news-branch keyword test (`main.py` line 281) on the lowercased
text. -/
def hasNewsKeyword (lower_text : String) : Bool :=
  containsSubstr lower_text "news" || containsSubstr lower_text "headlines" ||
    containsSubstr lower_text "latest"

/-- The branch `process_transcript` routes a turn to: the sequential
keyword `if`s of `main.py`, weather first, then news, then the
language-model fallback. -/
inductive Intent where
  | weather
  | news
  | llm
deriving Repr, DecidableEq

def classifyIntent (text : String) : Intent :=
  let lower_text := pyLower text
  if hasWeatherKeyword lower_text then .weather
  else if hasNewsKeyword lower_text then .news
  else .llm

/-- City extraction in the weather branch (`main.py` lines 243-250):
when `" in "` occurs, take the text after it, strip it, cut at the first
`"?"`, cut at the first `" for "`; fall back to `"New York"` when absent
or empty. -/
def extractCity (lower_text : String) : String :=
  if containsSubstr lower_text " in " then
    let c := pyStrip (afterFirst lower_text " in ")
    let c := beforeFirst c "?"
    let c := beforeFirst c " for "
    if c = "" then "New York" else c
  else "New York"

/-- Result of `weather_service.get_weather`: either the structured dict
(`location`, `country`, `condition`, `temperature_c`) or a dict with an
`error` entry. -/
inductive WeatherResult where
  | ok (location country condition : String) (temperature_c : Int)
  | err (message : String)
deriving Repr, DecidableEq

/-- The reply text the weather branch formats (`main.py` lines 258-265). -/
def weatherReply : WeatherResult → String
  | .ok location country condition temperature_c =>
      "Current weather in " ++ location ++ ", " ++ country ++ ": " ++ condition ++
        ". Temperature " ++ toString temperature_c ++ "°C."
  | .err message => "Sorry, I couldn\x27t fetch the weather: " ++ message

/-- One article as returned by `news_service.get_top_headlines`, restricted
to the fields the news branch reads. -/
structure Article where
  title : String
  source : String
deriving Repr, DecidableEq

/-- The reply text the news branch formats (`main.py` lines 290-293):
`get_top_headlines` returns `None` on failure, and an empty article list
is also falsy in Python. -/
def newsReply (articles : Option (List Article)) : String :=
  match articles with
  | some l =>
      if l.isEmpty then
        "I couldn\x27t fetch headlines right now. Check if your News API key is configured."
      else
        "Here are the top headlines:\n" ++
          joinWith "\n" (l.map (fun a => "- " ++ a.title ++ " (" ++ a.source ++ ")"))
  | none =>
      "I couldn\x27t fetch headlines right now. Check if your News API key is configured."

/-- The observable outcome of one `process_transcript` call: the session
history afterwards, the events sent through `ws_callback`, and the
`stream_to_murf` invocations, each recorded as the list of text chunks
its `text_stream` argument produced. -/
structure ProcResult where
  history : List Turn
  events : List Event
  murfCalls : List (List String)
deriving Repr, DecidableEq

/-- The language-model fallback of `process_transcript` (`main.py` lines
307-356).  The branch at line 326 tests `hasattr(llm_response,
'__aiter__')`; `hasAiter llmResponseKind = false` (the call produces a
coroutine), so only the `else` arm (lines 345-356) is reachable, and that
arm is what is embedded: await the full response, send one
`llm_response` event, append the assistant turn only when the response
is non-empty, and invoke the synthesis relay once with the full text as
its single chunk when a synthesis key is present and the response is
non-empty. -/
def defaultBranch (murf_key : Option String) (history : List Turn)
    (outcome : LLMStreamResult) : ProcResult :=
  let full_response := stream_llm_response_async outcome
  { history :=
      if full_response ≠ "" then history ++ [⟨"assistant", full_response⟩] else history,
    events := [Event.llm_response full_response],
    murfCalls :=
      if pyTruthy murf_key && full_response != "" then [[full_response]] else [] }

/-- `process_transcript(session_id, text, ws_callback)` from `main.py`.
The user turn is appended first; then the sequential keyword tests pick
the weather, news or language-model branch.  The weather and news
capabilities are passed as functions standing for
`weather_service.get_weather` and `news_service.get_top_headlines`; the
language-model stream behaviour is the `outcome` argument. -/
def process_transcript (murf_key : Option String) (history : List Turn)
    (text : String) (weatherCap : String → WeatherResult)
    (newsCap : Unit → Option (List Article)) (outcome : LLMStreamResult) :
    ProcResult :=
  let history := history ++ [⟨"user", text⟩]
  let lower_text := pyLower text
  if hasWeatherKeyword lower_text then
    let reply_text := weatherReply (weatherCap (extractCity lower_text))
    { history := history ++ [⟨"assistant", reply_text⟩],
      events := [Event.weather reply_text],
      murfCalls := if pyTruthy murf_key then [[reply_text]] else [] }
  else if hasNewsKeyword lower_text then
    let short := newsReply (newsCap ())
    { history := history ++ [⟨"assistant", short⟩],
      events := [Event.news short],
      murfCalls := if pyTruthy murf_key then [[short]] else [] }
  else
    defaultBranch murf_key history outcome

-- ---------------------------------------------------------------------------
-- Session bootstrap: `ws_stream` in `main.py` (lines 364-470)
-- ---------------------------------------------------------------------------

/-- The observable outcome of the duplex-session bootstrap, up to the point
the receive loop would start: events sent, whether the connection was
closed, whether the recognizer client (`StreamingClient`) was
constructed, and whether the ingestion bridge (`QueueAudioStreamer`) was
created and started. -/
structure BootstrapResult where
  events : List Event
  closed : Bool
  recognizerCreated : Bool
  streamerStarted : Bool
deriving Repr, DecidableEq

/-- The bootstrap path of `ws_stream`: resolve the transcription key as
`query_params.get("aai") or AAI_API_KEY` (a missing query value and an
empty one are both falsy, as is an unset environment default); when the
resolved key is falsy, send exactly one `error` event and close before
the `StreamingClient` or the `QueueAudioStreamer` exist.  Otherwise the
client is built; `connect` either fails (error event, close) or succeeds
(info event), and the bridge is started only when the client exposes no
direct send function. -/
def ws_stream_bootstrap (query_aai default_aai : String)
    (connect_error : Option String) (has_send_fn : Bool) : BootstrapResult :=
  let aai_key := pyOr query_aai default_aai
  if aai_key = "" then
    { events := [Event.error "Missing AssemblyAI API key. Please configure it in settings."],
      closed := true, recognizerCreated := false, streamerStarted := false }
  else
    match connect_error with
    | some e =>
        { events := [Event.error ("Connection failed: " ++ e)],
          closed := true, recognizerCreated := true, streamerStarted := false }
    | none =>
        { events := [Event.info "Connected successfully"],
          closed := false, recognizerCreated := true, streamerStarted := !has_send_fn }

-- ---------------------------------------------------------------------------
-- `TTSService.generate` in `app/services/tts_service.py` (lines 12-32)
-- ---------------------------------------------------------------------------

/-- The `TTSService` construction state read by `generate`. -/
structure TTSService where
  api_key : String
  endpoint : String
  fallback_url : String
deriving Repr, DecidableEq

/-- The behaviour of the HTTP POST to the synthesis endpoint: timeout,
HTTP error status (`raise_for_status`), any other exception (network,
JSON decoding), or a JSON body whose `audioFile` field is absent
(`None`) or a string. -/
inductive TTSOutcome where
  | timeout
  | httpError (status : Nat)
  | exn (message : String)
  | ok (audioFile : Option String)
deriving Repr, DecidableEq

/-- What a `generate` call returns and whether it contacted the synthesis
service at all. -/
structure TTSCall where
  url : String
  contacted : Bool
deriving Repr, DecidableEq

/-- `TTSService.generate(text, voice_id)`: empty text short-circuits to the
fallback URL without a request; every failure path returns the fallback;
on success `data.get("audioFile") or self.fallback_url` returns the
`audioFile` value unless it is absent or falsy (the empty string). -/
def TTSService.generate (svc : TTSService) (text : String) (outcome : TTSOutcome) :
    TTSCall :=
  if text = "" then { url := svc.fallback_url, contacted := false }
  else
    match outcome with
    | .timeout => { url := svc.fallback_url, contacted := true }
    | .httpError _ => { url := svc.fallback_url, contacted := true }
    | .exn _ => { url := svc.fallback_url, contacted := true }
    | .ok (some s) =>
        if s ≠ "" then { url := s, contacted := true }
        else { url := svc.fallback_url, contacted := true }
    | .ok none => { url := svc.fallback_url, contacted := true }

/-- A concrete session history already holding the configured maximum
number of entries (`HISTORY_MAX_MESSAGES = 6`). -/
def fullHistory : List Turn :=
  [⟨"user", "u1"⟩, ⟨"assistant", "a1"⟩, ⟨"user", "u2"⟩,
   ⟨"assistant", "a2"⟩, ⟨"user", "u3"⟩, ⟨"assistant", "a3"⟩]

-- ===========================================================================
-- Theorems
-- ===========================================================================

theorem on_turn_preserves_inv (auto_reply : Bool) (st : TurnState) (e : TurnEvent)
    (h : TurnInv auto_reply st) : TurnInv auto_reply (on_turn auto_reply st e) := by
  obtain ⟨hnd, hsub, hrc⟩ := h
  unfold on_turn
  by_cases h1 : (!e.end_of_turn || !e.turn_is_formatted) = true
  · simp only [h1, if_true]
    exact ⟨hnd, hsub, hrc⟩
  · rw [if_neg h1]
    by_cases h2 : (pyStrip e.transcript = "" || st.seen_texts.contains (pyStrip e.transcript)) = true
    · simp only [h2, if_true]
      exact ⟨hnd, hsub, hrc⟩
    · rw [if_neg h2]
      have hnotseen : pyStrip e.transcript ∉ st.seen_texts := by
        intro hmem
        exact h2 (Bool.or_eq_true _ _ |>.mpr (Or.inr (List.elem_iff.mpr hmem)))
      refine ⟨?_, ?_, ?_⟩
      · rw [List.nodup_append]
        refine ⟨hnd, List.nodup_singleton _, ?_⟩
        intro a ha hb
        rw [List.mem_singleton] at hb
        subst hb
        exact hnotseen (hsub _ ha)
      · intro t ht
        rcases List.mem_append.mp ht with hmem | hmem
        · exact List.mem_cons_of_mem _ (hsub t hmem)
        · rw [List.mem_singleton] at hmem
          subst hmem
          exact List.mem_cons_self _ _
      · cases auto_reply with
        | true => simp only [if_true, hrc]
        | false => simpa using hrc

theorem runTurns_inv (auto_reply : Bool) (events : List TurnEvent) :
    TurnInv auto_reply (runTurns auto_reply events) := by
  have hinit : TurnInv auto_reply initialTurnState := by
    refine ⟨List.nodup_nil, ?_, ?_⟩
    · intro t ht; simp [initialTurnState] at ht
    · simp [initialTurnState]
  unfold runTurns
  generalize initialTurnState = st at hinit ⊢
  induction events generalizing st with
  | nil => exact hinit
  | cons e es ih =>
    exact ih _ (on_turn_preserves_inv auto_reply st e hinit)

/-- **C1.** For every session and every sequence of finalized transcript
events delivered to the turn callback, each distinct non-empty trimmed
transcript text triggers the intent router (`process_transcript`) and the
finalized-transcript client notification at most once per session,
regardless of how many times the recognizer re-emits that identical
text. -/
theorem turn_dedup_at_most_once (auto_reply : Bool) (events : List TurnEvent)
    (t : String) :
    ((runTurns auto_reply events).notifications.count t ≤ 1) ∧
    ((runTurns auto_reply events).routerCalls.count t ≤ 1) := by
  obtain ⟨hnd, _, hrc⟩ := runTurns_inv auto_reply events
  constructor
  · exact List.nodup_iff_count_le_one.mp hnd t
  · rw [hrc]
    cases auto_reply with
    | true => simpa using List.nodup_iff_count_le_one.mp hnd t
    | false => simp

namespace QueueAudioStreamer

theorem step_preserves_inv (budget : Nat) (st : StreamerState) (op : Op)
    (h : StreamerInv budget st) : StreamerInv budget (step budget st op) := by
  obtain ⟨heq, hle⟩ := h
  cases op with
  | send sz =>
    simp only [step, send]
    by_cases hc : st.inflight + sz > budget
    · rw [if_pos hc]
      exact ⟨heq, hle⟩
    · rw [if_neg hc]
      constructor
      · simp [heq, List.sum_append]
      · rw [List.sum_append, List.sum_cons, List.sum_nil]
        omega
  | consume =>
    cases hq : st.queued with
    | nil =>
      simp only [step, genStep, hq]
      exact ⟨heq, hle⟩
    | cons sz rest =>
      simp only [step, genStep, hq]
      rw [hq, List.sum_cons] at heq hle
      exact ⟨by show st.inflight - sz = rest.sum; omega,
             by show rest.sum ≤ budget; omega⟩

theorem run_inv (budget : Nat) (ops : List Op) :
    StreamerInv budget (run budget ops) := by
  have hinit : StreamerInv budget initial := ⟨rfl, Nat.zero_le budget⟩
  unfold run
  generalize initial = st at hinit ⊢
  induction ops generalizing st with
  | nil => exact hinit
  | cons op ops ih => exact ih _ (step_preserves_inv budget st op hinit)

end QueueAudioStreamer

/-- **C2.** For every interleaving of `send(frame)` calls and worker
consumption steps on the audio ingestion queue: the bytes currently
enqueued-but-not-yet-consumed never exceed the configured byte budget
(and `_inflight` tracks that total exactly); moreover a further `send`
drops the frame and leaves the queue unchanged when the enqueued bytes
plus the frame size would exceed the budget, and enqueues the frame
otherwise. -/
theorem audio_queue_budget (budget : Nat) (ops : List QueueAudioStreamer.Op)
    (sz : Nat) :
    ((QueueAudioStreamer.run budget ops).inflight
        = (QueueAudioStreamer.run budget ops).queued.sum) ∧
    ((QueueAudioStreamer.run budget ops).queued.sum ≤ budget) ∧
    (QueueAudioStreamer.send budget (QueueAudioStreamer.run budget ops) sz
        = if (QueueAudioStreamer.run budget ops).inflight + sz > budget
          then QueueAudioStreamer.run budget ops
          else { queued := (QueueAudioStreamer.run budget ops).queued ++ [sz],
                 inflight := (QueueAudioStreamer.run budget ops).inflight + sz }) := by
  obtain ⟨heq, hle⟩ := QueueAudioStreamer.run_inv budget ops
  exact ⟨heq, hle, rfl⟩

-- C3 ------------------------------------------------------------------------

/-- **C3 (counterexample).** The claim fails on the duplex-session path:
`process_transcript` appends to `CHAT_HISTORY` without any trimming, so
an append to a history already at the configured maximum
(`HISTORY_MAX_MESSAGES = 6`) leaves the history above the maximum (here
8 entries after the user and assistant appends of one turn). -/
theorem duplex_history_exceeds_configured_max :
    fullHistory.length = HISTORY_MAX_MESSAGES ∧
    (process_transcript none fullHistory "hi" (fun _ => .err "") (fun _ => none)
        (.success ["ok"])).history.length = HISTORY_MAX_MESSAGES + 2 := by
  decide

/-- **C3 (amended).** For appends made through `save_message` (the HTTP
chat path in `routes.py`): after any append the history holds at most
`max_len` entries; when the history is already at `max_len`, the append
evicts exactly the oldest entry, the length stays at `max_len`, and the
relative order of the remaining turns is preserved (the result is the
old tail followed by the new turn).  The duplex path (`main.py`) does
not trim. -/
theorem save_message_bounded_evicts_oldest (max_len : Nat) (h h2 : List Turn)
    (role content : String) (hpos : 0 < max_len) (hfull : h.length = max_len) :
    save_message max_len h role content = h.drop 1 ++ [⟨role, content⟩] ∧
    (save_message max_len h role content).length = max_len ∧
    (save_message max_len h2 role content).length ≤ max_len := by
  have hlen : (h ++ [(⟨role, content⟩ : Turn)]).length = max_len + 1 := by
    simp [hfull]
  have heq : save_message max_len h role content = h.drop 1 ++ [⟨role, content⟩] := by
    unfold save_message pyLastSlice
    rw [if_pos (by omega), if_neg (by omega), hlen]
    have h1 : max_len + 1 - max_len = 1 := by omega
    rw [h1, List.drop_append_of_le_length (by omega)]
  refine ⟨heq, ?_, ?_⟩
  · rw [heq]
    simp only [List.length_append, List.length_drop, List.length_singleton, hfull]
    omega
  · unfold save_message pyLastSlice
    by_cases hc : (h2 ++ [(⟨role, content⟩ : Turn)]).length > max_len
    · rw [if_pos hc, if_neg (by omega)]
      simp only [List.length_drop]
      omega
    · rw [if_neg hc]
      omega

/-- Witness for `save_message_bounded_evicts_oldest` at the configured
maximum of 6 and a full concrete history. -/
theorem save_message_bounded_evicts_oldest_witness :
    0 < HISTORY_MAX_MESSAGES ∧ fullHistory.length = HISTORY_MAX_MESSAGES ∧
    (save_message HISTORY_MAX_MESSAGES fullHistory "user" "u4"
        = fullHistory.drop 1 ++ [⟨"user", "u4"⟩] ∧
      (save_message HISTORY_MAX_MESSAGES fullHistory "user" "u4").length
        = HISTORY_MAX_MESSAGES ∧
      (save_message HISTORY_MAX_MESSAGES [] "user" "u4").length
        ≤ HISTORY_MAX_MESSAGES) :=
  ⟨by decide, by decide,
    save_message_bounded_evicts_oldest HISTORY_MAX_MESSAGES fullHistory [] "user" "u4"
      (by decide) (by decide)⟩

-- C4 ------------------------------------------------------------------------

/-- **C4.** In the default branch, the hasattr test at `main.py` line 326
is false (`stream_llm_response_async` produces a coroutine, not an async
iterator), so for a stream producing the increments "Hel", "lo wor",
"ld": no `llm_chunk` event is ever sent, the client receives a single
`llm_response` event only after the stream has completed, and the
synthesis relay is invoked once with the single fully-assembled text —
contradicting the claim that each increment is relayed when it is
produced. -/
theorem default_branch_relays_only_after_completion :
    hasAiter llmResponseKind = false ∧
    (process_transcript (some "mk") [] "tell me a story" (fun _ => .err "")
        (fun _ => none) (.success ["Hel", "lo wor", "ld"])).events
      = [Event.llm_response "Hello world"] ∧
    (process_transcript (some "mk") [] "tell me a story" (fun _ => .err "")
        (fun _ => none) (.success ["Hel", "lo wor", "ld"])).murfCalls
      = [["Hello world"]] := by
  decide

-- C5 ------------------------------------------------------------------------

/-- **C5 (counterexample).** A language-model stream that fails after
producing the increment "Hel" does not get its partial text appended:
`stream_llm_response_async` returns the empty string (the `except` at
`llm_service.py` line 156 discards `full_text`) and the session history
afterwards holds no assistant turn, contradicting the claimed append of
"Hel". -/
theorem llm_failure_drops_partial_cx :
    stream_llm_response_async (.failure ["Hel"]) = "" ∧
    (process_transcript (some "mk") [⟨"user", "hi"⟩, ⟨"assistant", "hello"⟩]
        "continue" (fun _ => .err "") (fun _ => none) (.failure ["Hel"])).history
      = [⟨"user", "hi"⟩, ⟨"assistant", "hello"⟩, ⟨"user", "continue"⟩] := by
  decide

/-- `classifyIntent text = llm` means neither keyword test fires. -/
theorem classify_llm_no_keywords (text : String)
    (h : classifyIntent text = Intent.llm) :
    hasWeatherKeyword (pyLower text) = false ∧
    hasNewsKeyword (pyLower text) = false := by
  simp only [classifyIntent] at h
  by_cases hw : hasWeatherKeyword (pyLower text) = true
  · rw [if_pos hw] at h
    exact absurd h (by decide)
  · rw [if_neg hw] at h
    by_cases hn : hasNewsKeyword (pyLower text) = true
    · rw [if_pos hn] at h
      exact absurd h (by decide)
    · exact ⟨Bool.not_eq_true _ |>.mp hw, Bool.not_eq_true _ |>.mp hn⟩

/-- **C5 (amended).** For every language-model streaming call that fails,
whatever was accumulated before the failure is discarded: the call
returns the empty string, no assistant turn is appended to the session
history, and the synthesis relay is not invoked. -/
theorem llm_failure_appends_nothing (murf_key : Option String)
    (history : List Turn) (text : String) (weatherCap : String → WeatherResult)
    (newsCap : Unit → Option (List Article)) (chunks : List String)
    (hintent : classifyIntent text = Intent.llm) :
    stream_llm_response_async (.failure chunks) = "" ∧
    (process_transcript murf_key history text weatherCap newsCap
        (.failure chunks)).history = history ++ [⟨"user", text⟩] ∧
    (process_transcript murf_key history text weatherCap newsCap
        (.failure chunks)).murfCalls = [] := by
  obtain ⟨hw, hn⟩ := classify_llm_no_keywords text hintent
  refine ⟨rfl, ?_, ?_⟩ <;>
    simp [process_transcript, hw, hn, defaultBranch, stream_llm_response_async]

/-- Witness for `llm_failure_appends_nothing` at a concrete failed
stream. -/
theorem llm_failure_appends_nothing_witness :
    classifyIntent "continue" = Intent.llm ∧
    (stream_llm_response_async (.failure ["par", "tial"]) = "" ∧
      (process_transcript (some "mk") [] "continue" (fun _ => .err "")
          (fun _ => none) (.failure ["par", "tial"])).history
        = [] ++ [⟨"user", "continue"⟩] ∧
      (process_transcript (some "mk") [] "continue" (fun _ => .err "")
          (fun _ => none) (.failure ["par", "tial"])).murfCalls = []) :=
  ⟨by decide,
    llm_failure_appends_nothing (some "mk") [] "continue" _ _ ["par", "tial"]
      (by decide)⟩

-- C6 ------------------------------------------------------------------------

/-- **C6.** For every language-model streaming call that completes
successfully with a non-empty concatenation, exactly one assistant turn
is appended to the session history and its content is the concatenation
of all yielded chunks; no partial chunk enters the history as its own
turn. -/
theorem llm_success_appends_single_concatenated_turn (murf_key : Option String)
    (history : List Turn) (text : String) (weatherCap : String → WeatherResult)
    (newsCap : Unit → Option (List Article)) (chunks : List String)
    (hintent : classifyIntent text = Intent.llm)
    (hne : joinChunks chunks ≠ "") :
    (process_transcript murf_key history text weatherCap newsCap
        (.success chunks)).history
      = history ++ [⟨"user", text⟩, ⟨"assistant", joinChunks chunks⟩] := by
  obtain ⟨hw, hn⟩ := classify_llm_no_keywords text hintent
  simp only [process_transcript, hw, hn, Bool.false_eq_true, if_false,
    defaultBranch, stream_llm_response_async]
  rw [if_pos hne]
  simp

/-- Witness for `llm_success_appends_single_concatenated_turn` on the
three-chunk scenario "Hel", "lo wor", "ld". -/
theorem llm_success_appends_single_concatenated_turn_witness :
    classifyIntent "hi" = Intent.llm ∧
    joinChunks ["Hel", "lo wor", "ld"] ≠ "" ∧
    joinChunks ["Hel", "lo wor", "ld"] = "Hello world" ∧
    (process_transcript (some "mk") [] "hi" (fun _ => .err "") (fun _ => none)
        (.success ["Hel", "lo wor", "ld"])).history
      = [] ++ [⟨"user", "hi"⟩, ⟨"assistant", joinChunks ["Hel", "lo wor", "ld"]⟩] :=
  ⟨by decide, by decide, by decide,
    llm_success_appends_single_concatenated_turn (some "mk") [] "hi" _ _
      ["Hel", "lo wor", "ld"] (by decide) (by decide)⟩

-- C7 ------------------------------------------------------------------------

/-- **C7.** Intent classification evaluates the keyword tests in the fixed
order weather, news, language-model default, and exactly one branch
runs: any text containing both a weather keyword and a news keyword is
routed to the weather branch, whose single `weather` event is the only
event the turn produces. -/
theorem intent_priority_weather_over_news (text : String)
    (murf_key : Option String) (history : List Turn)
    (weatherCap : String → WeatherResult)
    (newsCap : Unit → Option (List Article)) (outcome : LLMStreamResult)
    (hw : hasWeatherKeyword (pyLower text) = true)
    (_hn : hasNewsKeyword (pyLower text) = true) :
    classifyIntent text = Intent.weather ∧
    (process_transcript murf_key history text weatherCap newsCap outcome).events
      = [Event.weather (weatherReply (weatherCap (extractCity (pyLower text))))] := by
  constructor
  · simp only [classifyIntent]
    rw [if_pos hw]
  · simp only [process_transcript]
    rw [if_pos hw]

/-- Witness for `intent_priority_weather_over_news` on the text
"weather news", which contains both a weather and a news keyword. -/
theorem intent_priority_weather_over_news_witness :
    hasWeatherKeyword (pyLower "weather news") = true ∧
    hasNewsKeyword (pyLower "weather news") = true ∧
    (classifyIntent "weather news" = Intent.weather ∧
      (process_transcript none [] "weather news"
          (fun _ => WeatherResult.err "no key") (fun _ => none)
          (.success [])).events
        = [Event.weather (weatherReply ((fun _ => WeatherResult.err "no key")
            (extractCity (pyLower "weather news"))))]) :=
  ⟨by decide, by decide,
    intent_priority_weather_over_news "weather news" none [] _ _ _
      (by decide) (by decide)⟩

-- C8 ------------------------------------------------------------------------

/-- **C8.** On input "weather in Paris", with the weather capability
returning location "Paris", country "France", condition "Clear",
temperature 18: the reply text is exactly
"Current weather in Paris, France: Clear. Temperature 18°C.", and with a
synthesis credential present the synthesis relay is invoked exactly once
with that reply as its single text chunk. -/
theorem weather_paris_scenario :
    (process_transcript (some "murf-key") [] "weather in Paris"
        (fun _ => .ok "Paris" "France" "Clear" 18) (fun _ => none)
        (.success [])).events
      = [Event.weather "Current weather in Paris, France: Clear. Temperature 18°C."] ∧
    (process_transcript (some "murf-key") [] "weather in Paris"
        (fun _ => .ok "Paris" "France" "Clear" 18) (fun _ => none)
        (.success [])).murfCalls
      = [["Current weather in Paris, France: Clear. Temperature 18°C."]] := by
  decide

-- C9 ------------------------------------------------------------------------

/-- **C9.** When no transcription credential is available (no query-string
override and no process default — both falsy), the session bootstrap
sends exactly one `error` event and closes the connection before the
recognizer client or the audio ingestion bridge is created. -/
theorem missing_transcription_key_fatal (query_aai default_aai : String)
    (connect_error : Option String) (has_send_fn : Bool)
    (hq : query_aai = "") (hd : default_aai = "") :
    ws_stream_bootstrap query_aai default_aai connect_error has_send_fn
      = { events := [Event.error
            "Missing AssemblyAI API key. Please configure it in settings."],
          closed := true, recognizerCreated := false, streamerStarted := false } := by
  subst hq hd
  rfl

/-- Witness for `missing_transcription_key_fatal` with both credential
sources empty. -/
theorem missing_transcription_key_fatal_witness :
    ("" : String) = "" ∧
    ws_stream_bootstrap "" "" (some "refused") true
      = { events := [Event.error
            "Missing AssemblyAI API key. Please configure it in settings."],
          closed := true, recognizerCreated := false, streamerStarted := false } :=
  ⟨rfl, missing_transcription_key_fatal "" "" (some "refused") true rfl rfl⟩

-- C10 -----------------------------------------------------------------------

/-- **C10 (counterexample).** The claim fails on a response whose
`audioFile` field is present but empty: `data.get("audioFile") or
self.fallback_url` is falsy on the empty string, so `generate` returns
the fallback URL instead of the audioFile value from the response. -/
theorem tts_empty_audiofile_cx :
    (TTSService.generate ⟨"k", "https://api.murf.ai/v1/speech/generate",
        "/static/fallback.mp3"⟩ "hello" (.ok (some ""))).url
      = "/static/fallback.mp3" := by
  decide

/-- **C10 (amended).** `TTSService.generate` never raises (it is total in
this model, as the source wraps the request in a catch-all handler): for
empty text it returns the fallback URL without contacting the synthesis
service; on timeout, HTTP error, any other exception, or a response
whose `audioFile` field is missing or empty it returns the fallback URL;
otherwise it returns the (non-empty) `audioFile` URL from the
response. -/
theorem tts_generate_fallback_spec (svc : TTSService) (text s m : String)
    (n : Nat) (ht : text ≠ "") (hs : s ≠ "") :
    (svc.generate text (.ok (some s))) = { url := s, contacted := true } ∧
    (svc.generate text .timeout) = { url := svc.fallback_url, contacted := true } ∧
    (svc.generate text (.httpError n))
      = { url := svc.fallback_url, contacted := true } ∧
    (svc.generate text (.exn m)) = { url := svc.fallback_url, contacted := true } ∧
    (svc.generate text (.ok none))
      = { url := svc.fallback_url, contacted := true } ∧
    (svc.generate text (.ok (some "")))
      = { url := svc.fallback_url, contacted := true } ∧
    (svc.generate "" (.ok (some s)))
      = { url := svc.fallback_url, contacted := false } := by
  refine ⟨?_, ?_, ?_, ?_, ?_, ?_, ?_⟩ <;>
    simp [TTSService.generate, ht, hs]

/-- Witness for `tts_generate_fallback_spec` at concrete text and URL. -/
theorem tts_generate_fallback_spec_witness :
    ("hello" : String) ≠ "" ∧ ("https://audio.example/a.wav" : String) ≠ "" ∧
    (TTSService.generate ⟨"k", "ep", "/static/fallback.mp3"⟩ "hello"
        (.ok (some "https://audio.example/a.wav")))
      = { url := "https://audio.example/a.wav", contacted := true } :=
  ⟨by decide, by decide,
    (tts_generate_fallback_spec ⟨"k", "ep", "/static/fallback.mp3"⟩ "hello"
      "https://audio.example/a.wav" "boom" 500 (by decide) (by decide)).1⟩

end DexterAI
